import Mathlib

/-!
A shallow embedding of the `progress_notifier` package: a notification
utility with a throttling layer (`ProgressNotifier.maybe_send`), an
unconditional send path (`ProgressNotifier.send_now`), a one-shot delivery
self-test (`ProgressNotifier._selftest`) and a best-effort dispatcher
(`ProgressNotifier._send_message` / `_send_http`).

External effects (subprocess spawns, HTTP requests) are recorded in a trace
of `Event`s; outcomes of the external world (probe results, raised
exceptions, filesystem lookups) are supplied by a `World` record.  Time is
modelled as an integer; `time.time()` values are passed in explicitly.
-/

set_option autoImplicit false

namespace OCNotify

/-- A Python exception, as a value: operations that may raise return
`Except PyExc`; a `try/except` in the source becomes a `match` whose
error branch continues (the exception is swallowed). -/
inductive PyExc where
  | exc
  deriving Repr, DecidableEq

/-- Outcome of the wrapped child process (for `wrap`): normal exit with a
code, termination by a signal, or the command not being found. -/
inductive ChildOutcome where
  | exited (code : Nat)
  | signaled (sig : Nat)
  | notFound
  deriving Repr, DecidableEq

/-- Observable external effects, in order of occurrence.
`dispatchCall` records an invocation of the dispatcher
`ProgressNotifier._send_message(args, media_path)`; `cliProbe` the dry-run
subprocess spawned by `_selftest`; `cliSend` the `subprocess.run(args)`
spawn in `_send_message`; `httpSend` the `urllib.request.urlopen` POST in
`_send_http` (message and the optional `mediaPath` payload field). -/
inductive Event where
  | dispatchCall (args : List String) (media_path : Option String)
  | cliProbe
  | cliSend (args : List String)
  | httpSend (message : String) (media_path : Option String)
  deriving Repr, DecidableEq

/-- The external world: the result of the self-test dry-run subprocess
(`none` = it raised, `some rc` = it returned with exit code `rc`), whether
`os.path.isfile` holds for a path, whether `subprocess.run` in
`_send_message` raises, whether `urlopen` raises, and the outcome of the
wrapped child process. -/
structure World where
  probe : Option Int
  fileExists : String → Bool
  cliRunRaises : Bool
  httpRaises : Bool
  childOutcome : ChildOutcome

/-- The state of one `ProgressNotifier` instance: configuration fixed at
construction plus the mutable throttle timestamps (`last_sent`,
`last_plot_sent`) and delivery state (`_tested`, `_use_http`,
`_cli_available`). -/
structure Notifier where
  interval_sec : Int
  plot_interval_sec : Int
  last_sent : Int
  last_plot_sent : Int
  channel : Option String
  target : Option String
  gateway_url : Option String
  gateway_token : Option String
  tested : Bool
  use_http : Bool
  cli_available : Bool
  deriving Repr, DecidableEq

/-- Python truthiness of an optional string (`not self.channel` is true
exactly when the value is `None` or the empty string). -/
def truthyO : Option String → Bool
  | none => false
  | some s => s != ""

/-- Embedding of `os.environ.get(name)` over an association-list environment. -/
def pyEnvGet (env : List (String × String)) (name : String) : Option String :=
  (env.find? fun p => p.1 == name).map Prod.snd

/-- Embedding of `_env(name)`: a set, non-empty variable gives its value; an unset or
empty variable gives `None` (the default). -/
def envResolve (env : List (String × String)) (name : String) : Option String :=
  match pyEnvGet env name with
  | some v => if v != "" then some v else none
  | none => none

/-- Python `a or b` on optional strings: `a` when truthy, else `b`. -/
def pyOr (a b : Option String) : Option String :=
  match a with
  | some s => if s != "" then some s else b
  | none => b

/-- Embedding of `ProgressNotifier.__init__`: resolves channel/target with their
two-level environment fallbacks, gateway settings, defaults the plot
interval to the text interval, zeroes the throttle timestamps, and records
whether the `openclaw` CLI is on the PATH (`shutil.which`). -/
def mkNotifier (env : List (String × String)) (interval_sec : Int)
    (plot_interval_sec : Option Int) (cli_available : Bool) : Notifier :=
  { interval_sec := interval_sec
    plot_interval_sec := plot_interval_sec.getD interval_sec
    last_sent := 0
    last_plot_sent := 0
    channel := pyOr (envResolve env "OPENCLAW_PROGRESS_CHANNEL")
      (envResolve env "OPENCLAW_DEFAULT_DM_CHANNEL")
    target := pyOr (envResolve env "OPENCLAW_PROGRESS_TARGET")
      (envResolve env "OPENCLAW_DEFAULT_DM_TARGET")
    gateway_url := envResolve env "OPENCLAW_GATEWAY_URL"
    gateway_token := envResolve env "OPENCLAW_GATEWAY_TOKEN"
    tested := false
    use_http := false
    cli_available := cli_available }

/-- The dry-run probe subprocess in `_selftest`: raises or returns a code. -/
def probeRun (w : World) : Except PyExc Int :=
  match w.probe with
  | none => Except.error PyExc.exc
  | some rc => Except.ok rc

/-- The `subprocess.run(args, check=False)` spawn in `_send_message`. -/
def subprocessRun (w : World) (args : List String) : Except PyExc Unit :=
  if w.cliRunRaises then Except.error PyExc.exc else Except.ok ()

/-- The `urllib.request.urlopen(req, timeout=15)` call in `_send_http`. -/
def urlopenRun (w : World) : Except PyExc Unit :=
  if w.httpRaises then Except.error PyExc.exc else Except.ok ()

/-- Embedding of `ProgressNotifier._selftest`: runs once (guarded by `_tested`); with no
channel/target it only warns; otherwise, when the CLI is available it
issues a dry-run probe (exit 0 keeps the CLI path, any failure or raised
exception selects the HTTP fallback); when the CLI is unavailable the HTTP
fallback is selected directly.  Diagnostics go to stderr and are not
modelled. -/
def selftest (w : World) (n : Notifier) : Notifier × List Event :=
  if n.tested then (n, [])
  else
    let n1 := { n with tested := true }
    if truthyO n1.channel && truthyO n1.target then
      if n1.cli_available then
        match probeRun w with
        | Except.ok rc =>
          if rc = 0 then (n1, [Event.cliProbe])
          else ({ n1 with use_http := true }, [Event.cliProbe])
        | Except.error _ => ({ n1 with use_http := true }, [Event.cliProbe])
      else ({ n1 with use_http := true }, [])
    else (n1, [])

/-- Embedding of `ProgressNotifier._send_http`: no-op without both gateway URL and
token; otherwise posts the JSON payload, attaching `mediaPath` only when
the path is truthy and the file exists; any transport error is swallowed
(`except Exception: pass`). -/
def sendHttp (w : World) (n : Notifier) (message : String)
    (media_path : Option String) : List Event :=
  if truthyO n.gateway_url && truthyO n.gateway_token then
    let mediaField : Option String :=
      match media_path with
      | some mp => if mp != "" && w.fileExists mp then some mp else none
      | none => none
    match urlopenRun w with
    | Except.ok _ => [Event.httpSend message mediaField]
    | Except.error _ => [Event.httpSend message mediaField]
  else []

/-- The message-extraction loop in `_send_message`: the argument following
the first `"--message"` that has a successor, else the empty string. -/
def extractMessage : List String → String
  | [] => ""
  | [_] => ""
  | a :: b :: rest => if a = "--message" then b else extractMessage (b :: rest)

/-- Embedding of `ProgressNotifier._send_message(args, media_path)`: runs the self-test,
then either posts over HTTP (message extracted from `args`) or spawns the
CLI; a raised spawn error is swallowed (`except Exception: pass`).  The
invocation itself is recorded as a `dispatchCall` event. -/
def sendMessage (w : World) (n : Notifier) (args : List String)
    (media_path : Option String) : Notifier × List Event :=
  let r := selftest w n
  let n1 := r.1
  if n1.use_http then
    (n1, Event.dispatchCall args media_path ::
      (r.2 ++ sendHttp w n1 (extractMessage args) media_path))
  else
    match subprocessRun w args with
    | Except.ok _ =>
      (n1, Event.dispatchCall args media_path :: (r.2 ++ [Event.cliSend args]))
    | Except.error _ =>
      (n1, Event.dispatchCall args media_path :: (r.2 ++ [Event.cliSend args]))

/-- The base CLI command built by `send_now` / `maybe_send`:
`openclaw message send --channel C --target T --message M`. -/
def baseCmd (n : Notifier) (message : String) : List String :=
  ["openclaw", "message", "send",
   "--channel", n.channel.getD "",
   "--target", n.target.getD "",
   "--message", message]

/-- Embedding of `ProgressNotifier.send_now`: no-op without channel/target; otherwise
builds the CLI command (appending `--media` for a truthy plot path) and
dispatches once, unconditionally. -/
def send_now (w : World) (n : Notifier) (message : String)
    (plot_path : Option String) : Notifier × List Event :=
  if truthyO n.channel && truthyO n.target then
    let cmd := baseCmd n message
    let cmd := if truthyO plot_path then cmd ++ ["--media", plot_path.getD ""] else cmd
    sendMessage w n cmd plot_path
  else (n, [])

/-- Embedding of `ProgressNotifier.maybe_send`: no-op without channel/target; otherwise
computes `send_text` / `send_plot` from the throttle timestamps and the
current time, updates the timestamps of whichever kinds fire, and performs
at most one dispatch (text-only, combined, or plot-only with the same
message text). -/
def maybe_send (w : World) (n : Notifier) (now : Int) (message : String)
    (plot_path : Option String) : Notifier × List Event :=
  if truthyO n.channel && truthyO n.target then
    let send_text := decide (n.interval_sec ≤ now - n.last_sent)
    let send_plot := truthyO plot_path &&
      decide (n.plot_interval_sec ≤ now - n.last_plot_sent)
    if send_text && !send_plot then
      sendMessage w { n with last_sent := now } (baseCmd n message) none
    else if send_text && send_plot then
      sendMessage w { n with last_sent := now, last_plot_sent := now }
        (baseCmd n message ++ ["--media", plot_path.getD ""]) plot_path
    else if send_plot then
      sendMessage w { n with last_plot_sent := now }
        (baseCmd n message ++ ["--media", plot_path.getD ""]) plot_path
    else (n, [])
  else (n, [])

/-- Modelled from the spec: the completion message sent by `wrap` — the
`wrap` function is referenced by the tests but its definition is not under
`src/`; §4.5 requires a notification "describing success/failure and the
resolved exit status, including the optional label if given". -/
def wrapMessage (label : Option String) (status : Nat) : String :=
  (match label with
   | some l => l ++ ": "
   | none => "") ++
  (if status = 0 then "succeeded" else "failed") ++
  " with status " ++ toString status

/-- Modelled from the spec: the process wrapper `wrap(argv, label?)` — its
definition is not under `src/` (only its tests are).  Per §4.5: an empty
command vector returns status 1 immediately with no dispatch and no
self-test; otherwise the child is spawned and its outcome mapped to a
POSIX-style status (normal exit ⇒ that code, command not found ⇒ 127,
signal N ⇒ 128+N), and exactly one completion notification is sent via
`send_now`. -/
def wrap (w : World) (n : Notifier) (argv : List String)
    (label : Option String) : Nat × Notifier × List Event :=
  if argv = [] then (1, n, [])
  else
    let status : Nat :=
      match w.childOutcome with
      | ChildOutcome.exited code => code
      | ChildOutcome.signaled sig => 128 + sig
      | ChildOutcome.notFound => 127
    let r := send_now w n (wrapMessage label status) none
    (status, r.1, r.2)

/-- Modelled from the spec: `_detect_channel_type` — referenced by the
tests but not defined under `src/`.  Per §4.6: telegram ⇒ table;
discord/slack/whatsapp ⇒ rich; signal/imessage ⇒ plain; unknown or absent
channel ⇒ rich. -/
def detect_channel_type (channel : Option String) : String :=
  match channel with
  | none => "rich"
  | some c =>
    if c = "telegram" then "table"
    else if c = "discord" ∨ c = "slack" ∨ c = "whatsapp" then "rich"
    else if c = "signal" ∨ c = "imessage" then "plain"
    else "rich"

/-- The payload of a dispatcher invocation, when the event is one. -/
def dispatchPayload : Event → Option (List String × Option String)
  | Event.dispatchCall a m => some (a, m)
  | _ => none

/-- The dispatcher invocations (`_send_message` calls) of a trace, with
their CLI argument vectors and `media_path` arguments. -/
def dispatchCalls (tr : List Event) : List (List String × Option String) :=
  tr.filterMap dispatchPayload

/-- Whether an event is an actual outbound send: a CLI spawn in
`_send_message` or an HTTP POST in `_send_http` (the self-test probe is a
dry run, not a send). -/
def isLowLevelSend : Event → Bool
  | Event.cliSend _ => true
  | Event.httpSend _ _ => true
  | _ => false

/-- Number of outbound CLI invocations plus HTTP POSTs in a trace. -/
def lowLevelSends (tr : List Event) : Nat :=
  (tr.filter isLowLevelSend).length

/-- Whether an event is the dry-run probe subprocess of the self-test. -/
def isProbe : Event → Bool
  | Event.cliProbe => true
  | _ => false

/-- Number of self-test probe subprocesses spawned in a trace. -/
def probeEvents (tr : List Event) : Nat :=
  (tr.filter isProbe).length

/-- A notifier with both channel and target configured (truthy). -/
abbrev configured (n : Notifier) : Prop :=
  truthyO n.channel = true ∧ truthyO n.target = true

/-- An environment variable that is unset or set to the empty string. -/
abbrev absentVar (env : List (String × String)) (name : String) : Prop :=
  pyEnvGet env name = none ∨ pyEnvGet env name = some ""

/-! ### Helper lemmas -/

theorem selftest_tested_eq (w : World) (n : Notifier) (h : n.tested = true) :
    selftest w n = (n, []) := by
  simp [selftest, h]

theorem selftest_trace_cases (w : World) (n : Notifier) :
    (selftest w n).2 = [] ∨ (selftest w n).2 = [Event.cliProbe] := by
  unfold selftest
  repeat' (first | split | dsimp only)
  all_goals simp

theorem selftest_fst_fields (w : World) (n : Notifier) :
    (selftest w n).1.interval_sec = n.interval_sec ∧
    (selftest w n).1.plot_interval_sec = n.plot_interval_sec ∧
    (selftest w n).1.last_sent = n.last_sent ∧
    (selftest w n).1.last_plot_sent = n.last_plot_sent ∧
    (selftest w n).1.channel = n.channel ∧
    (selftest w n).1.target = n.target ∧
    (selftest w n).1.gateway_url = n.gateway_url ∧
    (selftest w n).1.gateway_token = n.gateway_token ∧
    (selftest w n).1.cli_available = n.cli_available ∧
    (selftest w n).1.tested = true := by
  unfold selftest
  repeat' (first | split | dsimp only)
  all_goals simp_all

theorem sendMessage_fst (w : World) (n : Notifier) (args : List String)
    (mp : Option String) : (sendMessage w n args mp).1 = (selftest w n).1 := by
  unfold sendMessage
  repeat' (first | split | dsimp only)
  all_goals rfl

theorem dispatchCalls_sendHttp (w : World) (n : Notifier) (m : String)
    (mp : Option String) : dispatchCalls (sendHttp w n m mp) = [] := by
  unfold sendHttp
  repeat' (first | split | dsimp only)
  all_goals simp [dispatchCalls, dispatchPayload]

theorem lowLevel_sendHttp (w : World) (n : Notifier) (m : String)
    (mp : Option String) : lowLevelSends (sendHttp w n m mp) ≤ 1 := by
  unfold sendHttp
  repeat' (first | split | dsimp only)
  all_goals simp [lowLevelSends, isLowLevelSend]

theorem probe_sendHttp (w : World) (n : Notifier) (m : String)
    (mp : Option String) : probeEvents (sendHttp w n m mp) = 0 := by
  unfold sendHttp
  repeat' (first | split | dsimp only)
  all_goals simp [probeEvents, isProbe]

theorem sendMessage_calls (w : World) (n : Notifier) (args : List String)
    (mp : Option String) :
    dispatchCalls (sendMessage w n args mp).2 = [(args, mp)] := by
  have hh := dispatchCalls_sendHttp w (selftest w n).1 (extractMessage args) mp
  simp only [dispatchCalls] at hh ⊢
  unfold sendMessage
  rcases selftest_trace_cases w n with h | h <;>
    repeat' (first | split | dsimp only)
  all_goals
    simp_all [dispatchPayload, List.filterMap_append, List.filterMap_cons]

theorem sendMessage_lowLevel (w : World) (n : Notifier) (args : List String)
    (mp : Option String) :
    lowLevelSends (sendMessage w n args mp).2 ≤ 1 := by
  have hh := lowLevel_sendHttp w (selftest w n).1 (extractMessage args) mp
  simp only [lowLevelSends] at hh ⊢
  unfold sendMessage
  rcases selftest_trace_cases w n with h | h <;>
    repeat' (first | split | dsimp only)
  all_goals
    simp_all [isLowLevelSend, List.filter_append, List.filter_cons]

theorem sendMessage_tested_fst (w : World) (n : Notifier) (args : List String)
    (mp : Option String) (h : n.tested = true) :
    (sendMessage w n args mp).1 = n := by
  rw [sendMessage_fst, selftest_tested_eq w n h]

theorem sendMessage_tested_probe (w : World) (n : Notifier) (args : List String)
    (mp : Option String) (h : n.tested = true) :
    probeEvents (sendMessage w n args mp).2 = 0 := by
  have hh := probe_sendHttp w n (extractMessage args) mp
  simp only [probeEvents] at hh ⊢
  unfold sendMessage
  rw [selftest_tested_eq w n h]
  repeat' (first | split | dsimp only)
  all_goals
    simp_all [isProbe, List.filter_append, List.filter_cons]

theorem sendHttp_eq (w : World) (n : Notifier) (m : String) (mp : Option String) :
    sendHttp w n m mp =
      (if truthyO n.gateway_url && truthyO n.gateway_token then
        [Event.httpSend m
          (match mp with
           | some s => if s != "" && w.fileExists s then some s else none
           | none => none)]
      else []) := by
  unfold sendHttp
  repeat' (first | split | dsimp only)
  all_goals simp_all

theorem sendMessage_eq (w : World) (n : Notifier) (args : List String)
    (mp : Option String) :
    sendMessage w n args mp =
      (if (selftest w n).1.use_http then
        ((selftest w n).1, Event.dispatchCall args mp ::
          ((selftest w n).2 ++ sendHttp w (selftest w n).1 (extractMessage args) mp))
      else
        ((selftest w n).1, Event.dispatchCall args mp ::
          ((selftest w n).2 ++ [Event.cliSend args]))) := by
  unfold sendMessage
  repeat' (first | split | dsimp only)
  all_goals simp_all

theorem selftest_ts (w : World) (n : Notifier) (a b : Int) :
    selftest w { n with last_sent := a, last_plot_sent := b } =
      ({ (selftest w n).1 with last_sent := a, last_plot_sent := b },
        (selftest w n).2) := by
  unfold selftest
  repeat' (first | split | dsimp only)
  all_goals simp_all

theorem sendMessage_raises_blind (w : World) (n : Notifier) (args : List String)
    (mp : Option String) :
    sendMessage { w with cliRunRaises := true, httpRaises := true } n args mp =
      sendMessage w n args mp := by
  rw [sendMessage_eq, sendMessage_eq]
  have hsf : selftest { w with cliRunRaises := true, httpRaises := true } n =
      selftest w n := rfl
  have hh : sendHttp { w with cliRunRaises := true, httpRaises := true }
      (selftest w n).1 (extractMessage args) mp =
      sendHttp w (selftest w n).1 (extractMessage args) mp := by
    rw [sendHttp_eq, sendHttp_eq]
  rw [hsf, hh]

theorem envResolve_absent (env : List (String × String)) (name : String)
    (h : absentVar env name) : envResolve env name = none := by
  rcases h with h | h <;> simp [envResolve, h]

/-! ### Concrete instances used by the witnesses -/

/-- A benign world: the probe succeeds, no file exists, nothing raises,
and the wrapped child exits 0. -/
def WOk : World :=
  { probe := some 0
    fileExists := fun _ => false
    cliRunRaises := false
    httpRaises := false
    childOutcome := ChildOutcome.exited 0 }

/-- A configured, fresh notifier (channel and target present, CLI on the
PATH, 300-second intervals, nothing sent yet). -/
def NConf : Notifier :=
  { interval_sec := 300
    plot_interval_sec := 300
    last_sent := 0
    last_plot_sent := 0
    channel := some "discord"
    target := some "channel:123"
    gateway_url := none
    gateway_token := none
    tested := false
    use_http := false
    cli_available := true }


theorem sendMessage_ts_trace (w : World) (n : Notifier) (args : List String)
    (mp : Option String) (a b : Int) :
    (sendMessage w { n with last_sent := a, last_plot_sent := b } args mp).2 =
      (sendMessage w n args mp).2 := by
  rw [sendMessage_eq, sendMessage_eq, selftest_ts, sendHttp_eq, sendHttp_eq]
  dsimp only
  split <;> rfl

theorem send_now_fst (w : World) (n : Notifier) (msg : String) (p : Option String)
    (h1 : truthyO n.channel = true) (h2 : truthyO n.target = true) :
    (send_now w n msg p).1 = (selftest w n).1 := by
  unfold send_now
  simp only [h1, h2, Bool.and_self, if_true]
  repeat' (first | split | dsimp only)
  all_goals rw [sendMessage_fst]

theorem send_now_calls_len (w : World) (n : Notifier) (msg : String)
    (p : Option String) (h1 : truthyO n.channel = true)
    (h2 : truthyO n.target = true) :
    (dispatchCalls (send_now w n msg p).2).length = 1 := by
  unfold send_now
  simp only [h1, h2, Bool.and_self, if_true]
  repeat' (first | split | dsimp only)
  all_goals rw [sendMessage_calls] <;> rfl

/-- A configured notifier whose plot interval (50 s) is shorter than its
text interval (300 s), with nothing sent yet. -/
def NPlot : Notifier :=
  { NConf with plot_interval_sec := 50 }

/-- A failing world: the probe raises, no file exists, the CLI spawn and
the HTTP POST both raise, and the wrapped child is killed by signal 9. -/
def WFail : World :=
  { probe := none
    fileExists := fun _ => false
    cliRunRaises := true
    httpRaises := true
    childOutcome := ChildOutcome.signaled 9 }


/-- A configured notifier with text interval 0 and a large plot interval
(9999 s), nothing sent yet. -/
def NZero : Notifier :=
  { NConf with interval_sec := 0, plot_interval_sec := 9999 }

/-- A configured notifier whose delivery self-test has already run
(CLI path selected). -/
def NTested : Notifier :=
  { NConf with tested := true }


/-! ### Claim theorems -/

/-- C9: `_detect_channel_type` is a pure total function from an optional
channel name to one of \x7brich, table, plain\x7d: telegram maps to table;
discord, slack and whatsapp map to rich; signal and imessage map to plain;
every other channel name, and an absent channel, maps to rich.  (Totality
and purity hold by construction: `detect_channel_type` is a total Lean
function.) -/
theorem detect_channel_type_classification (c : String)
    (h : c ≠ "telegram" ∧ c ≠ "discord" ∧ c ≠ "slack" ∧ c ≠ "whatsapp" ∧
      c ≠ "signal" ∧ c ≠ "imessage") :
    detect_channel_type (some "telegram") = "table" ∧
    detect_channel_type (some "discord") = "rich" ∧
    detect_channel_type (some "slack") = "rich" ∧
    detect_channel_type (some "whatsapp") = "rich" ∧
    detect_channel_type (some "signal") = "plain" ∧
    detect_channel_type (some "imessage") = "plain" ∧
    detect_channel_type (some c) = "rich" ∧
    detect_channel_type none = "rich" := by
  obtain ⟨h1, h2, h3, h4, h5, h6⟩ := h
  refine ⟨by decide, by decide, by decide, by decide, by decide, by decide, ?_, by decide⟩
  simp [detect_channel_type, h1, h2, h3, h4, h5, h6]

/-- C9 witness: instantiation at the unknown channel name "somenewthing". -/
theorem detect_channel_type_classification_witness :
    ("somenewthing" ≠ "telegram" ∧ "somenewthing" ≠ "discord" ∧
     "somenewthing" ≠ "slack" ∧ "somenewthing" ≠ "whatsapp" ∧
     "somenewthing" ≠ "signal" ∧ "somenewthing" ≠ "imessage") ∧
    detect_channel_type (some "somenewthing") = "rich" :=
  ⟨by decide, (detect_channel_type_classification "somenewthing" (by decide)).2.2.2.2.2.2.1⟩

/-- C5: the dispatcher never raises: the results of `send_now` and
`maybe_send` (state and full event trace) are identical whether or not the
CLI spawn (`subprocess.run`) and the HTTP POST (`urlopen`) raise — every
exception below them is swallowed by the `try/except` blocks of
`_send_message` / `_send_http`, so the caller always sees a normal return
(the embedded functions are total, with the raising operations modelled as
`Except`-valued and caught exactly where the source catches them). -/
theorem dispatch_never_raises (w : World) (n : Notifier) (now : Int)
    (msg : String) (p : Option String) :
    send_now { w with cliRunRaises := true, httpRaises := true } n msg p =
      send_now w n msg p ∧
    maybe_send { w with cliRunRaises := true, httpRaises := true } n now msg p =
      maybe_send w n now msg p := by
  constructor
  · unfold send_now
    repeat' (first | split | dsimp only)
    all_goals first | rfl | exact sendMessage_raises_blind w n _ _
  · unfold maybe_send
    repeat' (first | split | dsimp only)
    all_goals first | rfl | exact sendMessage_raises_blind w _ _ _

/-- C2: a notifier whose channel or target resolves to absent (both the
explicit and the fallback environment variables unset or empty) is inert:
`send_now` and `maybe_send` return the state unchanged with an empty event
trace — no CLI subprocess, no HTTP request, no probe, and no throttle
timestamp change. -/
theorem unconfigured_noop (env : List (String × String)) (i : Int)
    (pIv : Option Int) (cli : Bool) (w : World) (now : Int) (msg : String)
    (p : Option String)
    (h : (absentVar env "OPENCLAW_PROGRESS_CHANNEL" ∧
          absentVar env "OPENCLAW_DEFAULT_DM_CHANNEL") ∨
         (absentVar env "OPENCLAW_PROGRESS_TARGET" ∧
          absentVar env "OPENCLAW_DEFAULT_DM_TARGET")) :
    send_now w (mkNotifier env i pIv cli) msg p = (mkNotifier env i pIv cli, []) ∧
    maybe_send w (mkNotifier env i pIv cli) now msg p =
      (mkNotifier env i pIv cli, []) := by
  have hfalse : truthyO (mkNotifier env i pIv cli).channel = false ∨
      truthyO (mkNotifier env i pIv cli).target = false := by
    rcases h with ⟨h1, h2⟩ | ⟨h1, h2⟩
    · left
      simp [mkNotifier, pyOr, envResolve_absent env _ h1, envResolve_absent env _ h2, truthyO]
    · right
      simp [mkNotifier, pyOr, envResolve_absent env _ h1, envResolve_absent env _ h2, truthyO]
  rcases hfalse with hf | hf <;>
    constructor <;>
      simp [send_now, maybe_send, hf]

/-- C2 witness: a concrete empty environment. -/
theorem unconfigured_noop_witness :
    ((absentVar [] "OPENCLAW_PROGRESS_CHANNEL" ∧
      absentVar [] "OPENCLAW_DEFAULT_DM_CHANNEL") ∨
     (absentVar [] "OPENCLAW_PROGRESS_TARGET" ∧
      absentVar [] "OPENCLAW_DEFAULT_DM_TARGET")) ∧
    send_now WOk (mkNotifier [] 300 none true) "hello" none =
      (mkNotifier [] 300 none true, []) :=
  ⟨Or.inl ⟨Or.inl rfl, Or.inl rfl⟩,
    (unconfigured_noop [] 300 none true WOk 0 "hello" none
      (Or.inl ⟨Or.inl rfl, Or.inl rfl⟩)).1⟩

/-- C7: `send_now` bypasses throttling: on a configured notifier it always
performs exactly one dispatch (it takes no time argument at all), it leaves
`last_sent` and `last_plot_sent` unchanged, and its emitted trace is
independent of the throttle timestamps (it does not read them). -/
theorem send_now_bypasses_throttle (w : World) (n : Notifier) (msg : String)
    (p : Option String) (a b : Int) (hc : configured n) :
    (dispatchCalls (send_now w n msg p).2).length = 1 ∧
    (send_now w n msg p).1.last_sent = n.last_sent ∧
    (send_now w n msg p).1.last_plot_sent = n.last_plot_sent ∧
    (send_now w { n with last_sent := a, last_plot_sent := b } msg p).2 =
      (send_now w n msg p).2 := by
  obtain ⟨h1, h2⟩ := hc
  refine ⟨send_now_calls_len w n msg p h1 h2, ?_, ?_, ?_⟩
  · rw [send_now_fst w n msg p h1 h2]
    exact (selftest_fst_fields w n).2.2.1
  · rw [send_now_fst w n msg p h1 h2]
    exact (selftest_fst_fields w n).2.2.2.1
  · unfold send_now
    simp only [h1, h2, Bool.and_self, if_true]
    repeat' (first | split | dsimp only)
    all_goals exact sendMessage_ts_trace w n _ p a b

/-- C7 witness: concrete configured notifier; timestamps 7 and 9. -/
theorem send_now_bypasses_throttle_witness :
    configured NConf ∧
    ((dispatchCalls (send_now WOk NConf "m" none).2).length = 1 ∧
     (send_now WOk NConf "m" none).1.last_sent = NConf.last_sent ∧
     (send_now WOk NConf "m" none).1.last_plot_sent = NConf.last_plot_sent ∧
     (send_now WOk { NConf with last_sent := 7, last_plot_sent := 9 } "m" none).2 =
       (send_now WOk NConf "m" none).2) :=
  ⟨by decide, send_now_bypasses_throttle WOk NConf "m" none 7 9 (by decide)⟩

/-- C1: on a configured notifier every `maybe_send` call performs at most
one dispatch — at most one `_send_message` invocation and at most one
low-level CLI spawn or HTTP POST — and in the combined-due case (text
interval and plot interval both elapsed, truthy plot path) exactly one
dispatch occurs, carrying the message and the attachment in a single
argument vector, with both `last_sent` and `last_plot_sent` set to the
current time. -/
theorem maybe_send_single_dispatch (w : World) (n : Notifier) (now : Int)
    (msg : String) (p : Option String) (hc : configured n) :
    lowLevelSends (maybe_send w n now msg p).2 ≤ 1 ∧
    (dispatchCalls (maybe_send w n now msg p).2).length ≤ 1 ∧
    (n.interval_sec ≤ now - n.last_sent →
      truthyO p = true →
      n.plot_interval_sec ≤ now - n.last_plot_sent →
      dispatchCalls (maybe_send w n now msg p).2 =
        [(baseCmd n msg ++ ["--media", p.getD ""], p)] ∧
      (maybe_send w n now msg p).1.last_sent = now ∧
      (maybe_send w n now msg p).1.last_plot_sent = now) := by
  obtain ⟨h1, h2⟩ := hc
  refine ⟨?_, ?_, ?_⟩
  · unfold maybe_send
    repeat' (first | split | dsimp only)
    all_goals first
      | exact sendMessage_lowLevel w _ _ _
      | simp [lowLevelSends]
  · unfold maybe_send
    repeat' (first | split | dsimp only)
    all_goals first
      | (rw [sendMessage_calls]; simp)
      | simp [dispatchCalls]
  · intro hts htp hpl
    have e1 : decide (n.interval_sec ≤ now - n.last_sent) = true :=
      decide_eq_true hts
    have e2 : decide (n.plot_interval_sec ≤ now - n.last_plot_sent) = true :=
      decide_eq_true hpl
    unfold maybe_send
    simp only [h1, h2, e1, e2, htp, Bool.and_self, if_true, Bool.and_true,
      Bool.true_and, Bool.not_true, Bool.and_false, Bool.false_eq_true,
      if_false]
    refine ⟨by rw [sendMessage_calls], ?_, ?_⟩
    · rw [sendMessage_fst]
      exact (selftest_fst_fields w _).2.2.1
    · rw [sendMessage_fst]
      exact (selftest_fst_fields w _).2.2.2.1

/-- C1 witness: fresh configured notifier, both intervals (300 s) elapsed
at time 400 with a plot path present. -/
theorem maybe_send_single_dispatch_witness :
    configured NConf ∧
    (lowLevelSends (maybe_send WOk NConf 400 "m" (some "/tmp/p.png")).2 ≤ 1 ∧
     (dispatchCalls (maybe_send WOk NConf 400 "m" (some "/tmp/p.png")).2).length ≤ 1 ∧
     (NConf.interval_sec ≤ 400 - NConf.last_sent →
       truthyO (some "/tmp/p.png") = true →
       NConf.plot_interval_sec ≤ 400 - NConf.last_plot_sent →
       dispatchCalls (maybe_send WOk NConf 400 "m" (some "/tmp/p.png")).2 =
         [(baseCmd NConf "m" ++ ["--media", (some "/tmp/p.png").getD ""],
           some "/tmp/p.png")] ∧
       (maybe_send WOk NConf 400 "m" (some "/tmp/p.png")).1.last_sent = 400 ∧
       (maybe_send WOk NConf 400 "m" (some "/tmp/p.png")).1.last_plot_sent = 400)) :=
  ⟨by decide, maybe_send_single_dispatch WOk NConf 400 "m" (some "/tmp/p.png") (by decide)⟩

/-- C4: in the plot-due-but-text-not-due branch of `maybe_send` the single
dispatch carries the same message text together with the attachment
(`--message msg --media p` in one argument vector), `last_plot_sent` is set
to the current time and `last_sent` is left unchanged. -/
theorem plot_only_branch (w : World) (n : Notifier) (now : Int) (msg : String)
    (p : String) (hc : configured n) (hp : p ≠ "")
    (hplot : n.plot_interval_sec ≤ now - n.last_plot_sent)
    (htext : now - n.last_sent < n.interval_sec) :
    dispatchCalls (maybe_send w n now msg (some p)).2 =
      [(baseCmd n msg ++ ["--media", p], some p)] ∧
    (maybe_send w n now msg (some p)).1.last_plot_sent = now ∧
    (maybe_send w n now msg (some p)).1.last_sent = n.last_sent := by
  obtain ⟨h1, h2⟩ := hc
  have e1 : decide (n.interval_sec ≤ now - n.last_sent) = false :=
    decide_eq_false (not_le.mpr htext)
  have e2 : decide (n.plot_interval_sec ≤ now - n.last_plot_sent) = true :=
    decide_eq_true hplot
  have htp : truthyO (some p) = true := by simp [truthyO, hp]
  unfold maybe_send
  simp only [h1, h2, e1, e2, htp, Bool.and_self, if_true, Bool.and_true,
    Bool.true_and, Bool.false_and, Bool.false_eq_true, if_false]
  refine ⟨by rw [sendMessage_calls]; simp, ?_, ?_⟩
  · rw [sendMessage_fst]
    exact (selftest_fst_fields w _).2.2.2.1
  · rw [sendMessage_fst]
    exact (selftest_fst_fields w _).2.2.1

/-- C4 witness: plot interval 50 elapsed at time 100, text interval 300
not elapsed. -/
theorem plot_only_branch_witness :
    configured NPlot ∧ "/tmp/p.png" ≠ "" ∧
    NPlot.plot_interval_sec ≤ 100 - NPlot.last_plot_sent ∧
    100 - NPlot.last_sent < NPlot.interval_sec ∧
    (dispatchCalls (maybe_send WOk NPlot 100 "m" (some "/tmp/p.png")).2 =
       [(baseCmd NPlot "m" ++ ["--media", "/tmp/p.png"], some "/tmp/p.png")] ∧
     (maybe_send WOk NPlot 100 "m" (some "/tmp/p.png")).1.last_plot_sent = 100 ∧
     (maybe_send WOk NPlot 100 "m" (some "/tmp/p.png")).1.last_sent =
       NPlot.last_sent) :=
  ⟨by decide, by decide, by decide, by decide,
    plot_only_branch WOk NPlot 100 "m" "/tmp/p.png" (by decide) (by decide)
      (by decide) (by decide)⟩

/-- C10: throttle timestamps advance on the decision to send, for every
world — including worlds where the CLI spawn raises, the HTTP POST raises,
or the HTTP path silently no-ops for lack of gateway configuration: if the
text interval has elapsed, `last_sent` is set to the current time, and if a
truthy plot path is given and the plot interval has elapsed,
`last_plot_sent` is set to the current time (the updated state is passed
into the dispatcher, so a failed delivery still consumes the window). -/
theorem throttle_updates_on_decision (w : World) (n : Notifier) (now : Int)
    (msg : String) (p : Option String) (hc : configured n) :
    (n.interval_sec ≤ now - n.last_sent →
      (maybe_send w n now msg p).1.last_sent = now) ∧
    (truthyO p = true → n.plot_interval_sec ≤ now - n.last_plot_sent →
      (maybe_send w n now msg p).1.last_plot_sent = now) := by
  obtain ⟨h1, h2⟩ := hc
  constructor
  · intro hts
    have e1 : decide (n.interval_sec ≤ now - n.last_sent) = true :=
      decide_eq_true hts
    unfold maybe_send
    cases hsp : (truthyO p && decide (n.plot_interval_sec ≤ now - n.last_plot_sent)) <;>
      simp only [h1, h2, e1, hsp, Bool.and_self, if_true, Bool.and_true,
        Bool.true_and, Bool.not_true, Bool.not_false, Bool.and_false,
        Bool.false_eq_true, if_false] <;>
      rw [sendMessage_fst]
    · exact (selftest_fst_fields w _).2.2.1
    · exact (selftest_fst_fields w _).2.2.1
  · intro htp hpl
    have e2 : decide (n.plot_interval_sec ≤ now - n.last_plot_sent) = true :=
      decide_eq_true hpl
    unfold maybe_send
    cases hst : decide (n.interval_sec ≤ now - n.last_sent) <;>
      simp only [h1, h2, e2, htp, hst, Bool.and_self, if_true, Bool.and_true,
        Bool.true_and, Bool.not_true, Bool.not_false, Bool.false_and,
        Bool.and_false, Bool.false_eq_true, if_false] <;>
      rw [sendMessage_fst]
    · exact (selftest_fst_fields w _).2.2.2.1
    · exact (selftest_fst_fields w _).2.2.2.1

/-- C10 witness: a failing world (CLI raises, HTTP raises, no file exists)
with both intervals elapsed at time 400: both timestamps still advance. -/
theorem throttle_updates_on_decision_witness :
    configured NConf ∧
    ((NConf.interval_sec ≤ 400 - NConf.last_sent →
      (maybe_send WFail NConf 400 "m" (some "/tmp/p.png")).1.last_sent = 400) ∧
     (truthyO (some "/tmp/p.png") = true →
      NConf.plot_interval_sec ≤ 400 - NConf.last_plot_sent →
      (maybe_send WFail NConf 400 "m" (some "/tmp/p.png")).1.last_plot_sent = 400)) :=
  ⟨by decide, throttle_updates_on_decision WFail NConf 400 "m" (some "/tmp/p.png")
    (by decide)⟩

/-- C3: independent throttling: on a configured notifier with text
interval 0 and plot interval `L` (due at the first call), two successive
`maybe_send` calls with a plot path, the second within `L` seconds of the
first, produce exactly two dispatches in total, with the attachment
present only on the first (the first dispatch carries `--media`, the
second is text-only with no media). -/
theorem independent_throttling (w1 w2 : World) (n : Notifier) (t1 t2 : Int)
    (msg1 msg2 : String) (p : String) (hc : configured n)
    (hti : n.interval_sec = 0) (hp : p ≠ "")
    (hplotdue : n.plot_interval_sec ≤ t1 - n.last_plot_sent)
    (htext : n.last_sent ≤ t1) (hord : t1 ≤ t2)
    (hwithin : t2 - t1 < n.plot_interval_sec) :
    dispatchCalls (maybe_send w1 n t1 msg1 (some p)).2 =
      [(baseCmd n msg1 ++ ["--media", p], some p)] ∧
    dispatchCalls
      (maybe_send w2 (maybe_send w1 n t1 msg1 (some p)).1 t2 msg2 (some p)).2 =
      [(baseCmd n msg2, none)] ∧
    (dispatchCalls (maybe_send w1 n t1 msg1 (some p)).2).length +
      (dispatchCalls
        (maybe_send w2 (maybe_send w1 n t1 msg1 (some p)).1 t2 msg2 (some p)).2).length
      = 2 := by
  obtain ⟨h1, h2⟩ := hc
  have htp : truthyO (some p) = true := by simp [truthyO, hp]
  have e1 : decide (n.interval_sec ≤ t1 - n.last_sent) = true :=
    decide_eq_true (by rw [hti]; exact sub_nonneg.mpr htext)
  have e2 : decide (n.plot_interval_sec ≤ t1 - n.last_plot_sent) = true :=
    decide_eq_true hplotdue
  have hr1 : maybe_send w1 n t1 msg1 (some p) =
      sendMessage w1 { n with last_sent := t1, last_plot_sent := t1 }
        (baseCmd n msg1 ++ ["--media", p]) (some p) := by
    unfold maybe_send
    simp [h1, h2, e1, e2, htp]
  have hfst : (maybe_send w1 n t1 msg1 (some p)).1 =
      (selftest w1 { n with last_sent := t1, last_plot_sent := t1 }).1 := by
    rw [hr1, sendMessage_fst]
  have hfields := selftest_fst_fields w1 { n with last_sent := t1, last_plot_sent := t1 }
  have hch : (maybe_send w1 n t1 msg1 (some p)).1.channel = n.channel := by
    rw [hfst]; exact hfields.2.2.2.2.1
  have htg : (maybe_send w1 n t1 msg1 (some p)).1.target = n.target := by
    rw [hfst]; exact hfields.2.2.2.2.2.1
  have hiv : (maybe_send w1 n t1 msg1 (some p)).1.interval_sec = n.interval_sec := by
    rw [hfst]; exact hfields.1
  have hpl : (maybe_send w1 n t1 msg1 (some p)).1.plot_interval_sec =
      n.plot_interval_sec := by
    rw [hfst]; exact hfields.2.1
  have hls : (maybe_send w1 n t1 msg1 (some p)).1.last_sent = t1 := by
    rw [hfst]; exact hfields.2.2.1
  have hlp : (maybe_send w1 n t1 msg1 (some p)).1.last_plot_sent = t1 := by
    rw [hfst]; exact hfields.2.2.2.1
  have key : ∀ m : Notifier, m.channel = n.channel → m.target = n.target →
      m.interval_sec = n.interval_sec → m.plot_interval_sec = n.plot_interval_sec →
      m.last_sent = t1 → m.last_plot_sent = t1 →
      maybe_send w2 m t2 msg2 (some p) =
        sendMessage w2 { m with last_sent := t2 } (baseCmd m msg2) none := by
    intro m mch mtg miv mpl mls mlp
    have e1b : decide (m.interval_sec ≤ t2 - m.last_sent) = true :=
      decide_eq_true (by rw [miv, mls, hti]; exact sub_nonneg.mpr hord)
    have e2b : decide (m.plot_interval_sec ≤ t2 - m.last_plot_sent) = false :=
      decide_eq_false (by rw [mpl, mlp]; exact not_le.mpr hwithin)
    unfold maybe_send
    simp [mch, mtg, h1, h2, e1b, e2b, htp]
  have hr2 := key (maybe_send w1 n t1 msg1 (some p)).1 hch htg hiv hpl hls hlp
  have hbase : baseCmd (maybe_send w1 n t1 msg1 (some p)).1 msg2 =
      baseCmd n msg2 := by
    simp [baseCmd, hch, htg]
  refine ⟨?_, ?_, ?_⟩
  · rw [hr1, sendMessage_calls]
  · rw [hr2, sendMessage_calls, hbase]
  · rw [hr2, hr1, sendMessage_calls, sendMessage_calls]
    try simp

/-- C3 witness: fresh notifier with text interval 0 and plot interval
9999, calls at times 10000 and 10005. -/
theorem independent_throttling_witness :
    configured NZero ∧ NZero.interval_sec = 0 ∧ "/tmp/p.png" ≠ "" ∧
    NZero.plot_interval_sec ≤ 10000 - NZero.last_plot_sent ∧
    NZero.last_sent ≤ 10000 ∧ (10000 : Int) ≤ 10005 ∧
    10005 - 10000 < NZero.plot_interval_sec ∧
    (dispatchCalls (maybe_send WOk NZero 10000 "a" (some "/tmp/p.png")).2 =
       [(baseCmd NZero "a" ++ ["--media", "/tmp/p.png"], some "/tmp/p.png")] ∧
     dispatchCalls
       (maybe_send WOk (maybe_send WOk NZero 10000 "a" (some "/tmp/p.png")).1
         10005 "b" (some "/tmp/p.png")).2 = [(baseCmd NZero "b", none)] ∧
     (dispatchCalls (maybe_send WOk NZero 10000 "a" (some "/tmp/p.png")).2).length +
       (dispatchCalls
         (maybe_send WOk (maybe_send WOk NZero 10000 "a" (some "/tmp/p.png")).1
           10005 "b" (some "/tmp/p.png")).2).length = 2) :=
  ⟨by decide, by decide, by decide, by decide, by decide, by decide, by decide,
    independent_throttling WOk WOk NZero 10000 10005 "a" "b" "/tmp/p.png"
      (by decide) (by decide) (by decide) (by decide) (by decide) (by decide)
      (by decide)⟩

theorem send_now_tested (w : World) (n : Notifier) (msg : String)
    (p : Option String) (h : n.tested = true) :
    (send_now w n msg p).1 = n ∧ probeEvents (send_now w n msg p).2 = 0 := by
  unfold send_now
  repeat' (first | split | dsimp only)
  all_goals first
    | exact ⟨sendMessage_tested_fst w n _ _ h, sendMessage_tested_probe w n _ _ h⟩
    | exact ⟨rfl, by simp [probeEvents]⟩

theorem maybe_send_tested_state (w : World) (n : Notifier) (now : Int)
    (msg : String) (p : Option String) (h : n.tested = true) :
    (maybe_send w n now msg p).1.tested = true ∧
    (maybe_send w n now msg p).1.use_http = n.use_http ∧
    (maybe_send w n now msg p).1.cli_available = n.cli_available := by
  unfold maybe_send
  repeat' (first | split | dsimp only)
  all_goals first
    | (rw [sendMessage_tested_fst w { n with last_sent := now } _ _ h]
       exact ⟨h, rfl, rfl⟩)
    | (rw [sendMessage_tested_fst w
        { n with last_sent := now, last_plot_sent := now } _ _ h]
       exact ⟨h, rfl, rfl⟩)
    | (rw [sendMessage_tested_fst w { n with last_plot_sent := now } _ _ h]
       exact ⟨h, rfl, rfl⟩)
    | exact ⟨h, rfl, rfl⟩

theorem maybe_send_tested_probe (w : World) (n : Notifier) (now : Int)
    (msg : String) (p : Option String) (h : n.tested = true) :
    probeEvents (maybe_send w n now msg p).2 = 0 := by
  unfold maybe_send
  repeat' (first | split | dsimp only)
  all_goals first
    | exact sendMessage_tested_probe w { n with last_sent := now } _ _ h
    | exact sendMessage_tested_probe w
        { n with last_sent := now, last_plot_sent := now } _ _ h
    | exact sendMessage_tested_probe w { n with last_plot_sent := now } _ _ h
    | simp [probeEvents]

/-- C6: the delivery self-test runs at most once per notifier lifetime.
Once `tested` is true, every `send_now` and `maybe_send` call keeps
`tested` true, leaves the delivery state (`use_http`, `cli_available`)
unchanged, and spawns no probe subprocess; and on a configured, untested
notifier, a send attempt (`send_now`) flips `tested` from false to true. -/
theorem selftest_once_invariant (w : World) (n : Notifier) (now : Int)
    (msg : String) (p : Option String) :
    (n.tested = true →
      (send_now w n msg p).1.tested = true ∧
      (send_now w n msg p).1.use_http = n.use_http ∧
      (send_now w n msg p).1.cli_available = n.cli_available ∧
      probeEvents (send_now w n msg p).2 = 0 ∧
      (maybe_send w n now msg p).1.tested = true ∧
      (maybe_send w n now msg p).1.use_http = n.use_http ∧
      (maybe_send w n now msg p).1.cli_available = n.cli_available ∧
      probeEvents (maybe_send w n now msg p).2 = 0) ∧
    (configured n → n.tested = false →
      (send_now w n msg p).1.tested = true) := by
  constructor
  · intro h
    obtain ⟨hfst, hprobe⟩ := send_now_tested w n msg p h
    obtain ⟨m1, m2, m3⟩ := maybe_send_tested_state w n now msg p h
    exact ⟨by rw [hfst]; exact h, by rw [hfst], by rw [hfst], hprobe,
      m1, m2, m3, maybe_send_tested_probe w n now msg p h⟩
  · intro hc _
    rw [send_now_fst w n msg p hc.1 hc.2]
    exact (selftest_fst_fields w n).2.2.2.2.2.2.2.2.2

/-- C6 witness: a configured notifier whose self-test has already run. -/
theorem selftest_once_invariant_witness :
    NTested.tested = true ∧
    ((send_now WOk NTested "m" none).1.tested = true ∧
     (send_now WOk NTested "m" none).1.use_http = NTested.use_http ∧
     (send_now WOk NTested "m" none).1.cli_available = NTested.cli_available ∧
     probeEvents (send_now WOk NTested "m" none).2 = 0 ∧
     (maybe_send WOk NTested 0 "m" none).1.tested = true ∧
     (maybe_send WOk NTested 0 "m" none).1.use_http = NTested.use_http ∧
     (maybe_send WOk NTested 0 "m" none).1.cli_available = NTested.cli_available ∧
     probeEvents (maybe_send WOk NTested 0 "m" none).2 = 0) :=
  ⟨rfl, (selftest_once_invariant WOk NTested 0 "m" none).1 rfl⟩

/-- C8: the process wrapper maps outcomes to a POSIX-style status: an
empty command vector returns status 1 immediately with no dispatch and no
self-test (state unchanged, empty trace); otherwise a normal child exit
returns that exit code, a command not found returns 127, termination by
signal N returns 128+N, and exactly one completion notification is
dispatched via `send_now`. -/
theorem wrap_status_map (w : World) (n : Notifier) (argv : List String)
    (label : Option String) (hc : configured n) (hargv : argv ≠ []) :
    wrap w n [] label = (1, n, []) ∧
    (∀ c, w.childOutcome = ChildOutcome.exited c → (wrap w n argv label).1 = c) ∧
    (w.childOutcome = ChildOutcome.notFound → (wrap w n argv label).1 = 127) ∧
    (∀ s, w.childOutcome = ChildOutcome.signaled s →
      (wrap w n argv label).1 = 128 + s) ∧
    (dispatchCalls (wrap w n argv label).2.2).length = 1 := by
  refine ⟨by simp [wrap], ?_, ?_, ?_, ?_⟩
  · intro c hco
    simp [wrap, hargv, hco]
  · intro hco
    simp [wrap, hargv, hco]
  · intro sg hco
    simp [wrap, hargv, hco]
  · unfold wrap
    simp only [hargv, if_false, ite_false]
    exact send_now_calls_len w n _ none hc.1 hc.2

/-- C8 witness: child exits 0 under `WOk`; configured notifier, nonempty
command vector. -/
theorem wrap_status_map_witness :
    configured NConf ∧ (["echo", "hi"] : List String) ≠ [] ∧
    (wrap WOk NConf [] (some "test-job") = (1, NConf, []) ∧
     (∀ c, WOk.childOutcome = ChildOutcome.exited c →
       (wrap WOk NConf ["echo", "hi"] (some "test-job")).1 = c) ∧
     (WOk.childOutcome = ChildOutcome.notFound →
       (wrap WOk NConf ["echo", "hi"] (some "test-job")).1 = 127) ∧
     (∀ s, WOk.childOutcome = ChildOutcome.signaled s →
       (wrap WOk NConf ["echo", "hi"] (some "test-job")).1 = 128 + s) ∧
     (dispatchCalls (wrap WOk NConf ["echo", "hi"] (some "test-job")).2.2).length = 1) :=
  ⟨by decide, by decide,
    wrap_status_map WOk NConf ["echo", "hi"] (some "test-job") (by decide)
      (by decide)⟩

end OCNotify
